import Mathlib

/-!
Verification of the Inventory Matching & Classification Engine of the
Dynamic_Recipe_Waste_Management repository (modules `recipe_ml.py`,
`expiry_ml.py`, `ingredient.py`), as a shallow embedding in Lean.

Python strings are embedded through their character lists; the string
operations the engine relies on (`str.split(',')`, `str.strip()`,
lexicographic comparison by code point as used by `sorted`) are defined
below on `List Char`, because they must evaluate inside the kernel.
-/

namespace RecipeWaste

/-- Python `str.strip()` whitespace test, restricted to the ASCII whitespace
characters (space, tab, newline, vertical tab, form feed, carriage return). -/
def pyIsSpace (c : Char) : Bool :=
  c = ' ' || c = '\t' || c = '\n' || c = '\x0b' || c = '\x0c' || c = '\r'

/-- Python `str.strip()` on a character list: drop whitespace from both ends. -/
def pyStripChars (cs : List Char) : List Char :=
  ((cs.dropWhile pyIsSpace).reverse.dropWhile pyIsSpace).reverse

/-- Helper for `str.split(',')`: walk the characters, cutting at every comma.
`acc` holds the current field, reversed. -/
def pySplitCommaAux : List Char → List Char → List (List Char)
  | [], acc => [acc.reverse]
  | c :: cs, acc =>
    if c = ',' then acc.reverse :: pySplitCommaAux cs []
    else pySplitCommaAux cs (c :: acc)

/-- Python `s.strip()`. -/
def pyStrip (s : String) : String := ⟨pyStripChars s.data⟩

/-- Python `s.split(',')`. -/
def pySplitComma (s : String) : List String :=
  (pySplitCommaAux s.data []).map (fun cs => ⟨cs⟩)

/-- The ingredient-text normalization used throughout `recipe_ml.py`:
`[ing.strip() for ing in s.split(',')]`. -/
def splitTrim (s : String) : List String := (pySplitComma s).map pyStrip

/-- Lexicographic `≤` on character lists, comparing code points, as Python
compares strings. -/
def lexLeChars : List Char → List Char → Bool
  | [], _ => true
  | _ :: _, [] => false
  | a :: as, b :: bs =>
    if a.toNat < b.toNat then true
    else if b.toNat < a.toNat then false
    else lexLeChars as bs

/-- Python string `≤` (code-point lexicographic order, as used by `sorted`). -/
def pyStrLe (a b : String) : Bool := lexLeChars a.data b.data

/-- The `≤` relation of `pyStrLe`, for sortedness statements. -/
def StrLe (a b : String) : Prop := pyStrLe a b = true

instance : DecidableRel StrLe := fun a b => by unfold StrLe; infer_instance

instance : IsTotal String StrLe where
  total a b := by
    have key : ∀ as bs : List Char,
        lexLeChars as bs = true ∨ lexLeChars bs as = true := by
      intro as
      induction as with
      | nil => intro bs; left; rfl
      | cons a as ih =>
        intro bs
        cases bs with
        | nil => right; rfl
        | cons b bs =>
          rcases Nat.lt_trichotomy a.toNat b.toNat with h | h | h
          · left; simp [lexLeChars, h]
          · rcases ih bs with h' | h' <;>
              simp [lexLeChars, h, Nat.lt_irrefl, h']
          · right; simp [lexLeChars, h]
    exact key a.data b.data

instance : IsTrans String StrLe where
  trans a b c hab hbc := by
    have key : ∀ as bs cs : List Char, lexLeChars as bs = true →
        lexLeChars bs cs = true → lexLeChars as cs = true := by
      intro as
      induction as with
      | nil => intro bs cs _ _; rfl
      | cons a as ih =>
        intro bs cs h₁ h₂
        cases bs with
        | nil => simp [lexLeChars] at h₁
        | cons b bs =>
          cases cs with
          | nil => simp [lexLeChars] at h₂
          | cons c cs =>
            by_cases hab : a.toNat < b.toNat <;> by_cases hbc : b.toNat < c.toNat
            · simp [lexLeChars, Nat.lt_trans hab hbc]
            · have : a.toNat < c.toNat := by
                simp [lexLeChars, hbc] at h₂
                omega
              simp [lexLeChars, this]
            · have : a.toNat < c.toNat := by
                simp [lexLeChars, hab] at h₁
                omega
              simp [lexLeChars, this]
            · simp [lexLeChars, hab] at h₁
              simp [lexLeChars, hbc] at h₂
              obtain ⟨hba, h₁⟩ := h₁
              obtain ⟨hcb, h₂⟩ := h₂
              by_cases h : a.toNat < c.toNat
              · simp [lexLeChars, h]
              · simp [lexLeChars, h, show ¬ c.toNat < a.toNat by omega]
                exact ih bs cs h₁ h₂
    exact key a.data b.data c.data hab hbc

/-! Recipe-side data model (`recipes.csv` rows and `ingredients.csv` rows). -/

/-- A row of `recipes.csv`. -/
structure Recipe where
  recipe_id : Int
  recipe_name : String
  ingredients : String
deriving DecidableEq

/-- A row of `ingredients.csv`, with the fields the engine reads.  Dates are
embedded as day numbers, so date subtraction is integer subtraction. -/
structure InventoryItem where
  id : Int
  name : String
  quantity : ℚ
  unit : String
  storage_type : String
  date_added : Int
deriving DecidableEq

/-- `recipe_ml.load_available_ingredients`: read `ingredients.csv` (`none` when
the file is missing), keep the rows with `quantity > 0`, return their names. -/
def load_available_ingredients : Option (List InventoryItem) → List String
  | none => []
  | some df => (df.filter (fun r => decide (0 < r.quantity))).map (fun r => r.name)

/-- The `all(ingredient in available_ingredients for ingredient in
required_ingredients)` check of `recipe_ml.get_all_possible_recipes`. -/
def can_make (available : List String) (r : Recipe) : Bool :=
  (splitTrim r.ingredients).all (fun ing => decide (ing ∈ available))

/-- `recipe_ml.get_all_possible_recipes`, parameterized by the loaded
available-ingredient names: the list of `{'recipe': ..., 'ingredients': ...}`
dictionaries collected for the recipes whose required ingredients are all
available. -/
def get_all_possible_recipes (available : List String) (recipes : List Recipe) :
    List (String × String) :=
  (recipes.filter (can_make available)).map (fun r => (r.recipe_name, r.ingredients))

/-- The missing-ingredient loop of `recipe_ml.check_recipe_feasibility`:
required ingredients (comma-split, stripped) that are not available. -/
def missing_ingredients (available : List String) (r : Recipe) : List String :=
  (splitTrim r.ingredients).filter (fun ing => decide (ing ∉ available))

/-! ML dataset generation (`recipe_ml.generate_ml_dataset`). -/

/-- One row of `ml_dataset.csv`: the recipe name and, per vocabulary entry in
vocabulary order, a 1/0 presence bit. -/
structure MLRow where
  recipe_name : String
  bits : List Int
deriving DecidableEq

/-- The vocabulary built by `generate_ml_dataset`: every comma-split, stripped
ingredient token of every recipe, collected into a set and sorted
(`sorted(list(all_ingredients))`, Python's code-point lexicographic order). -/
def build_vocabulary (recipes : List Recipe) : List String :=
  List.insertionSort StrLe ((recipes.map (fun r => splitTrim r.ingredients)).flatten.dedup)

/-- The binary row `generate_ml_dataset` builds for one recipe: bit 1 when the
vocabulary ingredient occurs in the recipe's stripped ingredient list. -/
def encode_row (vocab : List String) (r : Recipe) : MLRow :=
  { recipe_name := r.recipe_name,
    bits := vocab.map (fun ing => if decide (ing ∈ splitTrim r.ingredients) then 1 else 0) }

/-- `recipe_ml.generate_ml_dataset`, as the pair (vocabulary, rows). -/
def generate_ml_dataset (recipes : List Recipe) : List String × List MLRow :=
  (build_vocabulary recipes, recipes.map (encode_row (build_vocabulary recipes)))

/-! The error taxonomy of spec §7, embedding the failure modes of the Python
code: `insufficientData` for the zero-row training guard, `featureMismatch`
for sklearn's input-width rejection, `unknownCategory`/`unknownStorage` for
the `KeyError` a failed dictionary lookup raises. -/

inductive MLError where
  | insufficientData
  | featureMismatch
  | unknownCategory (name : String)
  | unknownStorage (name : String)
deriving DecidableEq

/-- Modelled from the spec: the opaque trained artifact of sklearn's
`DecisionTreeClassifier` (the fitted tree is external library code, not in
`src/`).  `n_features_in` is the feature-column count recorded at `fit` time;
`classify` and `proba_row` stand for the fitted tree's `predict` /
`predict_proba` outputs on an input row. -/
structure DTModel where
  n_features_in : Nat
  classify : List Int → String
  proba_row : List Int → List ℚ

/-- Modelled from the spec: `model.predict` on a one-row input.  sklearn
rejects an input whose width differs from `n_features_in_` (the spec's
`FeatureMismatchError`); otherwise it returns the fitted tree's class. -/
def DTModel.predict (m : DTModel) (v : List Int) : Except MLError String :=
  if v.length = m.n_features_in then .ok (m.classify v) else .error .featureMismatch

/-- Modelled from the spec: `model.predict_proba` on a one-row input, with the
same width rejection as `DTModel.predict`. -/
def DTModel.predict_proba (m : DTModel) (v : List Int) : Except MLError (List ℚ) :=
  if v.length = m.n_features_in then .ok (m.proba_row v) else .error .featureMismatch

/-- Modelled from the spec: the external `DecisionTreeClassifier.fit`, as an
abstract parameter producing the fitted tree's prediction functions from the
training matrix and labels. -/
def FitFn : Type :=
  List (List Int) → List String → (List Int → String) × (List Int → List ℚ)

/-- `recipe_ml.train_recipe_model`: build the dataset from the recipes, refuse
to train when it has no rows (`len(X) == 0`), otherwise fit and return the
model together with the feature names (the vocabulary). -/
def train_recipe_model (fit : FitFn) (recipes : List Recipe) :
    Except MLError (DTModel × List String) :=
  let vocab := (generate_ml_dataset recipes).1
  let rows := (generate_ml_dataset recipes).2
  let X := rows.map (fun r => r.bits)
  let y := rows.map (fun r => r.recipe_name)
  if X.length = 0 then .error .insufficientData
  else
    .ok ({ n_features_in := vocab.length,
           classify := (fit X y).1,
           proba_row := (fit X y).2 }, vocab)

/-- The prediction input vector `recipe_ml.suggest_recipes` builds: one entry
per feature name, 1 when that ingredient is available, 0 otherwise. -/
def suggest_input_vector (available : List String) (feature_names : List String) :
    List Int :=
  feature_names.map (fun f => if decide (f ∈ available) then 1 else 0)

/-! Expiry-side embedding (`expiry_ml.py`). -/

/-- A row of `expiry_dataset.csv`. -/
structure ExpiryRow where
  ingredient_type : String
  days_since_purchase : Int
  storage_type : String
  status : String
deriving DecidableEq

/-- The `ingredient_mapping` dictionary of `expiry_ml.py`. -/
def ingredient_mapping : List (String × Int) :=
  [("Vegetables", 1), ("Dairy", 2), ("Grains", 3)]

/-- The `storage_mapping` dictionary of `expiry_ml.py`. -/
def storage_mapping : List (String × Int) :=
  [("fridge", 1), ("freezer", 2), ("pantry", 3)]

/-- `ingredient_mapping[category]`: the dictionary lookup used both by
`load_expiry_dataset` and by `check_current_ingredients_expiry`; a missing key
raises `KeyError` (the spec's `UnknownCategoryError`). -/
def encode_ingredient_type (c : String) : Except MLError Int :=
  match ingredient_mapping.lookup c with
  | some v => .ok v
  | none => .error (.unknownCategory c)

/-- `storage_mapping[storage]`: a missing key raises `KeyError` (the spec's
`UnknownStorageError`). -/
def encode_storage_type (s : String) : Except MLError Int :=
  match storage_mapping.lookup s with
  | some v => .ok v
  | none => .error (.unknownStorage s)

/-- `expiry_ml.load_expiry_dataset`: encode every row's ingredient type (the
first unknown one raises), then every row's storage type, and return the
feature matrix `[type_code, days_since_purchase, storage_code]` with the
status labels. -/
def load_expiry_dataset (rows : List ExpiryRow) :
    Except MLError (List (List Int) × List String) := do
  let cats ← rows.mapM (fun r => encode_ingredient_type r.ingredient_type)
  let stors ← rows.mapM (fun r => encode_storage_type r.storage_type)
  let X := List.zipWith (fun (p : Int × ExpiryRow) s => [p.1, p.2.days_since_purchase, s])
    (cats.zip rows) stors
  pure (X, rows.map (fun r => r.status))

/-- `expiry_ml.train_expiry_model`: load the dataset and fit; the trained
model's feature width is the dataset's three columns. -/
def train_expiry_model (fit : FitFn) (rows : List ExpiryRow) :
    Except MLError (DTModel × List String) := do
  let Xy ← load_expiry_dataset rows
  pure ({ n_features_in := 3,
          classify := (fit Xy.1 Xy.2).1,
          proba_row := (fit Xy.1 Xy.2).2 },
        ["ingredient_type_encoded", "days_since_purchase", "storage_type_encoded"])

/-- The prediction step of `expiry_ml.predict_ingredient_expiry`, after the
input loops have collected an ingredient type, day count and storage type:
encode both categorical inputs, predict, and turn the maximum class
probability into a percentage confidence. -/
def predict_ingredient_expiry_core (m : DTModel) (ingredient_type : String)
    (days_since : Int) (storage_type : String) :
    Except MLError (String × Option ℚ) :=
  match encode_ingredient_type ingredient_type with
  | .error e => .error e
  | .ok c =>
    match encode_storage_type storage_type with
    | .error e => .error e
    | .ok s =>
      match m.predict [c, days_since, s] with
      | .error e => .error e
      | .ok label =>
        match m.predict_proba [c, days_since, s] with
        | .error e => .error e
        | .ok probs => .ok (label, probs.max?.map (fun q => q * 100))

/-- The `name_to_type` dictionary of `expiry_ml.check_current_ingredients_expiry`. -/
def name_to_type : List (String × String) :=
  [("Tomato", "Vegetables"), ("Onion", "Vegetables"), ("Garlic", "Vegetables"),
   ("Lemon", "Vegetables"), ("Potato", "Vegetables"), ("Carrot", "Vegetables"),
   ("Spinach", "Vegetables"),
   ("Cheese", "Dairy"), ("Milk", "Dairy"), ("Butter", "Dairy"),
   ("Rice", "Grains"), ("Bread", "Grains")]

/-- One entry of the `predictions` list `check_current_ingredients_expiry`
accumulates (the batch output carries no confidence field). -/
structure PredictionRec where
  name : String
  type : String
  days_since_purchase : Int
  storage : String
  predicted_status : String
  quantity : ℚ
  unit : String
deriving DecidableEq

/-- One iteration of the batch loop of
`expiry_ml.check_current_ingredients_expiry`: days since purchase is the raw
date difference `today - date_added` (no clamping, no future-date check), the
ingredient type is looked up by name with a silent `'Vegetables'` default,
both codes are encoded, and the model labels the row. -/
def classify_inventory_item (m : DTModel) (today : Int) (row : InventoryItem) :
    Except MLError PredictionRec :=
  match encode_ingredient_type ((name_to_type.lookup row.name).getD "Vegetables") with
  | .error e => .error e
  | .ok c =>
    match encode_storage_type row.storage_type with
    | .error e => .error e
    | .ok s =>
      match m.predict [c, today - row.date_added, s] with
      | .error e => .error e
      | .ok status =>
        .ok { name := row.name,
              type := (name_to_type.lookup row.name).getD "Vegetables",
              days_since_purchase := today - row.date_added,
              storage := row.storage_type, predicted_status := status,
              quantity := row.quantity, unit := row.unit }

/-- The batch loop of `expiry_ml.check_current_ingredients_expiry` over the
whole inventory; the first failing row aborts the batch, as the uncaught
exception does in the source. -/
def check_current_ingredients_expiry (m : DTModel) (today : Int)
    (inv : List InventoryItem) : Except MLError (List PredictionRec) :=
  inv.mapM (classify_inventory_item m today)

/-! Concrete artifacts used in witnesses and counterexamples. -/

/-- A concrete external fit procedure for witnesses: a constant tree. -/
def fit_const : FitFn := fun _ _ => (fun _ => "Tomato Soup", fun _ => [1])

/-- The model `train_recipe_model fit_const` produces on a one-recipe
catalog with the two-entry vocabulary ["Onion", "Tomato"]. -/
def model_const : DTModel :=
  { n_features_in := 2, classify := fun _ => "Tomato Soup", proba_row := fun _ => [1] }

/-- A concrete expiry model for concrete evaluations: a three-feature tree
answering "Safe" with full confidence. -/
def safe_model : DTModel :=
  { n_features_in := 3, classify := fun _ => "Safe", proba_row := fun _ => [1] }

/-- `safe_model` with a different posterior: same labels, zero top
probability. -/
def safe_model_zero : DTModel :=
  { n_features_in := 3, classify := fun _ => "Safe", proba_row := fun _ => [0] }

/-- A "Milk" inventory row acquired at day 101 — strictly after the as-of
day 100 used against it. -/
def future_milk : InventoryItem :=
  { id := 1, name := "Milk", quantity := 2, unit := "l",
    storage_type := "fridge", date_added := 101 }

/-- A "Milk" inventory row acquired at day 95, five days before the as-of
day 100, stored in the fridge: its batch encodings match the single
prediction on (Dairy, 5, fridge). -/
def milk_item : InventoryItem :=
  { id := 1, name := "Milk", quantity := 2, unit := "l",
    storage_type := "fridge", date_added := 95 }

/-! Theorems. -/

/-- C1: a recipe of the catalog appears in `get_all_possible_recipes`'s output
iff every one of its comma-split, stripped ingredients is a member of the
available set — exact set containment, no fuzzy or partial matching. -/
theorem C1_makeable_iff_all_available (available : List String)
    (recipes : List Recipe) (r : Recipe) (hr : r ∈ recipes) :
    (r.recipe_name, r.ingredients) ∈ get_all_possible_recipes available recipes ↔
      ∀ ing ∈ splitTrim r.ingredients, ing ∈ available := by
  unfold get_all_possible_recipes
  rw [List.mem_map]
  constructor
  · rintro ⟨r', hr', heq⟩
    rw [List.mem_filter] at hr'
    rw [Prod.mk.injEq] at heq
    have hcan := hr'.2
    unfold can_make at hcan
    rw [List.all_eq_true] at hcan
    intro ing hi
    have := hcan ing (by rw [heq.2]; exact hi)
    simpa using this
  · intro h
    refine ⟨r, List.mem_filter.mpr ⟨hr, ?_⟩, rfl⟩
    unfold can_make
    rw [List.all_eq_true]
    intro ing hi
    simpa using h ing hi

/-- Witness for C1 at the spec's own example: with Tomato, Onion, Salt and
Pepper available, "Tomato Soup" (requiring "Tomato, Onion, Salt") is makeable. -/
theorem C1_makeable_iff_all_available_witness :
    (("Tomato Soup", "Tomato, Onion, Salt") ∈
        get_all_possible_recipes ["Tomato", "Onion", "Salt", "Pepper"]
          [⟨1, "Tomato Soup", "Tomato, Onion, Salt"⟩] ↔
      ∀ ing ∈ splitTrim "Tomato, Onion, Salt",
        ing ∈ ["Tomato", "Onion", "Salt", "Pepper"]) ∧
    ("Tomato Soup", "Tomato, Onion, Salt") ∈
      get_all_possible_recipes ["Tomato", "Onion", "Salt", "Pepper"]
        [⟨1, "Tomato Soup", "Tomato, Onion, Salt"⟩] :=
  ⟨C1_makeable_iff_all_available _ _ _ (List.mem_singleton.mpr rfl), by decide⟩

/-- C8: the missing-ingredient computation of `check_recipe_feasibility`
returns exactly the required (comma-split, stripped) ingredients that are not
available, and it is empty precisely when the recipe is makeable. -/
theorem C8_missing_ingredients_exact (available : List String) (r : Recipe) :
    (∀ x, x ∈ missing_ingredients available r ↔
        x ∈ splitTrim r.ingredients ∧ x ∉ available) ∧
    (missing_ingredients available r = [] ↔ can_make available r = true) := by
  constructor
  · intro x
    simp [missing_ingredients]
  · simp [missing_ingredients, can_make, List.filter_eq_nil_iff, List.all_eq_true]

/-- C10: the available set is exactly the names of inventory rows with
strictly positive quantity, and a missing inventory file yields the empty
set. -/
theorem C10_available_ingredients_characterization :
    load_available_ingredients none = [] ∧
    ∀ (items : List InventoryItem) (n : String),
      n ∈ load_available_ingredients (some items) ↔
        ∃ it ∈ items, it.name = n ∧ 0 < it.quantity := by
  refine ⟨rfl, fun items n => ?_⟩
  simp only [load_available_ingredients, List.mem_map, List.mem_filter,
    decide_eq_true_eq]
  constructor
  · rintro ⟨it, ⟨hmem, hq⟩, hn⟩
    exact ⟨it, hmem, hn, hq⟩
  · rintro ⟨it, hmem, hn, hq⟩
    exact ⟨it, ⟨hmem, hq⟩, hn⟩

/-- C3: training the recipe classifier on an empty catalog (zero dataset rows)
fails with `insufficientData` and returns no model, whatever the external
fitting procedure is. -/
theorem C3_train_zero_recipes_fails (fit : FitFn) :
    train_recipe_model fit [] = .error .insufficientData ∧
    ∀ (m : DTModel) (vocab : List String),
      train_recipe_model fit [] ≠ .ok (m, vocab) := by
  refine ⟨rfl, fun m vocab h => ?_⟩
  rw [show train_recipe_model fit [] = .error .insufficientData from rfl] at h
  exact Except.noConfusion h

/-- An unknown category name misses every key of `ingredient_mapping`, so the
lookup fails. -/
theorem encode_ingredient_type_unknown {c : String}
    (h : c ∉ (["Vegetables", "Dairy", "Grains"] : List String)) :
    encode_ingredient_type c = .error (.unknownCategory c) := by
  simp only [List.mem_cons, List.not_mem_nil, or_false, not_or] at h
  obtain ⟨h1, h2, h3⟩ := h
  have b1 : (c == "Vegetables") = false := beq_eq_false_iff_ne.mpr h1
  have b2 : (c == "Dairy") = false := beq_eq_false_iff_ne.mpr h2
  have b3 : (c == "Grains") = false := beq_eq_false_iff_ne.mpr h3
  simp [encode_ingredient_type, ingredient_mapping, List.lookup, b1, b2, b3]

/-- A known category name encodes successfully. -/
theorem encode_ingredient_type_known {c : String}
    (h : c ∈ (["Vegetables", "Dairy", "Grains"] : List String)) :
    ∃ v, encode_ingredient_type c = .ok v := by
  simp only [List.mem_cons, List.not_mem_nil, or_false] at h
  rcases h with rfl | rfl | rfl
  · exact ⟨1, rfl⟩
  · exact ⟨2, rfl⟩
  · exact ⟨3, rfl⟩

/-- The category-encoding pass over a dataset fails with `unknownCategory` as
soon as some row's category is outside the enumeration. -/
theorem mapM_ingredient_type_error (rows : List ExpiryRow)
    (h : ∃ r ∈ rows, r.ingredient_type ∉ (["Vegetables", "Dairy", "Grains"] : List String)) :
    ∃ c, c ∉ (["Vegetables", "Dairy", "Grains"] : List String) ∧
      rows.mapM (fun r => encode_ingredient_type r.ingredient_type) =
        .error (.unknownCategory c) := by
  induction rows with
  | nil => simp at h
  | cons r tl ih =>
    rw [List.mapM_cons]
    by_cases hr : r.ingredient_type ∈ (["Vegetables", "Dairy", "Grains"] : List String)
    · obtain ⟨v, hv⟩ := encode_ingredient_type_known hr
      have htl : ∃ r ∈ tl, r.ingredient_type ∉ (["Vegetables", "Dairy", "Grains"] : List String) := by
        rcases h with ⟨r', hr', hbad⟩
        rcases List.mem_cons.mp hr' with rfl | hmem
        · exact absurd hr hbad
        · exact ⟨r', hmem, hbad⟩
      obtain ⟨c, hc, herr⟩ := ih htl
      exact ⟨c, hc, by rw [hv, herr]; rfl⟩
    · exact ⟨r.ingredient_type, hr, by rw [encode_ingredient_type_unknown hr]; rfl⟩

/-- C2: encoding a category outside {Vegetables, Dairy, Grains} fails with the
unknown-category error (the `KeyError` of the Python dictionary lookup, the
spec's `UnknownCategoryError`) instead of producing a code, and consequently
loading an expiry dataset containing such a category fails. -/
theorem C2_unknown_category_rejected :
    (∀ c : String, c ∉ (["Vegetables", "Dairy", "Grains"] : List String) →
      encode_ingredient_type c = .error (.unknownCategory c)) ∧
    ∀ rows : List ExpiryRow,
      (∃ r ∈ rows, r.ingredient_type ∉ (["Vegetables", "Dairy", "Grains"] : List String)) →
      ∃ c, c ∉ (["Vegetables", "Dairy", "Grains"] : List String) ∧
        load_expiry_dataset rows = .error (.unknownCategory c) := by
  refine ⟨fun c h => encode_ingredient_type_unknown h, fun rows h => ?_⟩
  obtain ⟨c, hc, herr⟩ := mapM_ingredient_type_error rows h
  exact ⟨c, hc, by rw [load_expiry_dataset, herr]; rfl⟩

/-- Witness for C2: the category "Meat" is rejected, and a dataset containing
it fails to load. -/
theorem C2_unknown_category_rejected_witness :
    encode_ingredient_type "Meat" = .error (.unknownCategory "Meat") ∧
    ∃ c, c ∉ (["Vegetables", "Dairy", "Grains"] : List String) ∧
      load_expiry_dataset [⟨"Meat", 3, "fridge", "Safe"⟩] =
        .error (.unknownCategory c) :=
  ⟨C2_unknown_category_rejected.1 "Meat" (by decide),
   C2_unknown_category_rejected.2 [⟨"Meat", 3, "fridge", "Safe"⟩]
     ⟨⟨"Meat", 3, "fridge", "Safe"⟩, List.mem_singleton.mpr rfl, by decide⟩⟩

/-- C4: a trained recipe model accepts exactly the input vectors whose length
is the training vocabulary size; any other length is rejected with the
feature-mismatch error, and in particular the availability vector that
`suggest_recipes` builds from the feature names is always accepted. -/
theorem C4_width_invariant (fit : FitFn) (recipes : List Recipe) (m : DTModel)
    (vocab : List String)
    (h : train_recipe_model fit recipes = .ok (m, vocab)) :
    (∀ v : List Int, (∃ lbl, m.predict v = .ok lbl) ↔ v.length = vocab.length) ∧
    (∀ v : List Int, v.length ≠ vocab.length →
      m.predict v = .error .featureMismatch) ∧
    ∀ available : List String,
      m.predict (suggest_input_vector available vocab) =
        .ok (m.classify (suggest_input_vector available vocab)) := by
  have hn : m.n_features_in = vocab.length := by
    unfold train_recipe_model at h
    by_cases hx : ((generate_ml_dataset recipes).2.map (fun r => r.bits)).length = 0
    · simp [hx] at h
    · simp only [hx, if_false] at h
      rw [Except.ok.injEq, Prod.mk.injEq] at h
      rw [← h.1, ← h.2]
  refine ⟨fun v => ?_, fun v hv => ?_, fun available => ?_⟩
  · unfold DTModel.predict
    rw [hn]
    by_cases hlen : v.length = vocab.length <;> simp [hlen]
  · unfold DTModel.predict
    rw [hn]
    simp [hv]
  · unfold DTModel.predict
    rw [hn]
    simp [suggest_input_vector]

/-- Witness for C4: a model trained on one recipe with vocabulary
["Onion", "Tomato"] accepts the 2-wide vector [1, 0] and rejects nothing of
width 2, while any other width would be rejected. -/
theorem C4_width_invariant_witness :
    ((∃ lbl, model_const.predict [1, 0] = .ok lbl) ↔
      ([1, 0] : List Int).length = (["Onion", "Tomato"] : List String).length) ∧
    (∀ v : List Int, v.length ≠ (["Onion", "Tomato"] : List String).length →
      model_const.predict v = .error .featureMismatch) ∧
    model_const.predict (suggest_input_vector ["Tomato"] ["Onion", "Tomato"]) =
      .ok (model_const.classify (suggest_input_vector ["Tomato"] ["Onion", "Tomato"])) := by
  have h := C4_width_invariant fit_const [⟨1, "Tomato Soup", "Tomato, Onion"⟩]
    model_const ["Onion", "Tomato"] rfl
  exact ⟨h.1 [1, 0], h.2.1, h.2.2 ["Tomato"]⟩

/-- Each encoded row has one bit per vocabulary entry. -/
theorem encode_row_bits_length (vocab : List String) (r : Recipe) :
    (encode_row vocab r).bits.length = vocab.length := by
  simp [encode_row]

/-- C5: dataset generation builds the vocabulary as the lexicographically
sorted (code-point order), duplicate-free list of the comma-split, stripped
ingredient tokens of all recipes, and emits one row per recipe whose bit for
each vocabulary entry, in vocabulary order, is 1 exactly when that ingredient
occurs in the recipe's stripped ingredient list, labelled with the recipe
name. -/
theorem C5_dataset_generation (recipes : List Recipe) :
    (build_vocabulary recipes).Sorted StrLe ∧
    (build_vocabulary recipes).Nodup ∧
    (∀ x, x ∈ build_vocabulary recipes ↔ ∃ r ∈ recipes, x ∈ splitTrim r.ingredients) ∧
    (generate_ml_dataset recipes).1 = build_vocabulary recipes ∧
    (generate_ml_dataset recipes).2 = recipes.map (encode_row (build_vocabulary recipes)) ∧
    ∀ (r : Recipe) (j : Fin (build_vocabulary recipes).length),
      (encode_row (build_vocabulary recipes) r).recipe_name = r.recipe_name ∧
      (encode_row (build_vocabulary recipes) r).bits.get
          (Fin.cast (encode_row_bits_length (build_vocabulary recipes) r).symm j) =
        if (build_vocabulary recipes).get j ∈ splitTrim r.ingredients then 1 else 0 := by
  refine ⟨List.sorted_insertionSort StrLe _, ?_, fun x => ?_, rfl, rfl, fun r j => ⟨rfl, ?_⟩⟩
  · exact (List.perm_insertionSort StrLe _).nodup_iff.mpr
      ((recipes.map (fun r => splitTrim r.ingredients)).flatten.nodup_dedup)
  · unfold build_vocabulary
    rw [List.mem_insertionSort, List.mem_dedup, List.mem_flatten]
    constructor
    · rintro ⟨l, hl, hx⟩
      rw [List.mem_map] at hl
      obtain ⟨r, hr, rfl⟩ := hl
      exact ⟨r, hr, hx⟩
    · rintro ⟨r, hr, hx⟩
      exact ⟨splitTrim r.ingredients, List.mem_map.mpr ⟨r, hr, rfl⟩, hx⟩
  · unfold encode_row
    simp

/-- A lookup over a name-to-type table whose values all lie in the category
enumeration, defaulted into the enumeration, stays in the enumeration. -/
theorem lookup_getD_mem {l : List (String × String)} {enum : List String}
    (n d : String) (hd : d ∈ enum) (hl : ∀ p ∈ l, p.2 ∈ enum) :
    (l.lookup n).getD d ∈ enum := by
  induction l with
  | nil => simpa [List.lookup]
  | cons p tl ih =>
    rw [List.lookup]
    by_cases h : (n == p.1) = true
    · simpa [h] using hl p (List.mem_cons_self p tl)
    · rw [Bool.not_eq_true] at h
      rw [h]
      exact ih fun q hq => hl q (List.mem_cons_of_mem p hq)

/-- The ingredient type the batch loop derives from an inventory name is
always in the category enumeration. -/
theorem derived_type_mem (n : String) :
    (name_to_type.lookup n).getD "Vegetables" ∈
      (["Vegetables", "Dairy", "Grains"] : List String) := by
  refine lookup_getD_mem n "Vegetables" (by decide) ?_
  decide

/-- A name outside the key set of an association list looks up to `none`. -/
theorem lookup_eq_none_of_not_mem_keys {l : List (String × String)} {n : String}
    (h : n ∉ l.map Prod.fst) : l.lookup n = none := by
  induction l with
  | nil => rfl
  | cons p tl ih =>
    simp only [List.map_cons, List.mem_cons, not_or] at h
    rw [List.lookup, beq_eq_false_iff_ne.mpr h.1]
    exact ih h.2

/-- Counterexample to C6: with the as-of day 100 and an acquisition day 101
(a strictly future acquisition), batch classification does not raise any
invalid-date error — it succeeds and carries the unclamped negative duration
-1. -/
theorem C6_counterexample_future_date :
    (100 : Int) < future_milk.date_added ∧
    check_current_ingredients_expiry safe_model 100 [future_milk] =
      .ok [{ name := "Milk", type := "Dairy", days_since_purchase := -1,
             storage := "fridge", predicted_status := "Safe",
             quantity := 2, unit := "l" }] ∧
    ¬ (0 : Int) ≤ -1 :=
  ⟨by decide, rfl, by decide⟩

/-- C6 as amended: the days-since-acquisition value the batch loop computes is
the exact signed difference `asOf - acquisition`, with no clamping at 0; a
future acquisition date is not rejected — classification proceeds on the
negative duration whenever the storage encoding and model width allow a
prediction at all. -/
theorem C6_amended_days_unclamped (m : DTModel) (today : Int)
    (row : InventoryItem) (hm : m.n_features_in = 3) (s : Int)
    (hs : encode_storage_type row.storage_type = .ok s) :
    ∃ rec, classify_inventory_item m today row = .ok rec ∧
      rec.days_since_purchase = today - row.date_added := by
  obtain ⟨c, hc⟩ := encode_ingredient_type_known (derived_type_mem row.name)
  refine ⟨{ name := row.name,
            type := (name_to_type.lookup row.name).getD "Vegetables",
            days_since_purchase := today - row.date_added,
            storage := row.storage_type,
            predicted_status := m.classify [c, today - row.date_added, s],
            quantity := row.quantity, unit := row.unit }, ?_, rfl⟩
  unfold classify_inventory_item DTModel.predict
  rw [hc, hs, hm]
  rfl

/-- Witness for C6's amended statement: the future-dated milk row classifies
with days-since-purchase `100 - 101`. -/
theorem C6_amended_days_unclamped_witness :
    ∃ rec, classify_inventory_item safe_model 100 future_milk = .ok rec ∧
      rec.days_since_purchase = 100 - future_milk.date_added :=
  C6_amended_days_unclamped safe_model 100 future_milk rfl 1 rfl

/-- Counterexample to C7: two models that agree on labels but disagree on
posteriors produce identical batch outputs on the single-item list (the batch
record has no confidence field) while their single-item predictions differ in
confidence — so the batch output cannot agree with the single prediction's
confidence. The encodings match: "Milk" maps to Dairy, 100 - 95 = 5 days,
fridge storage. -/
theorem C7_counterexample_no_batch_confidence :
    check_current_ingredients_expiry safe_model 100 [milk_item] =
      check_current_ingredients_expiry safe_model_zero 100 [milk_item] ∧
    predict_ingredient_expiry_core safe_model "Dairy" 5 "fridge" ≠
      predict_ingredient_expiry_core safe_model_zero "Dairy" 5 "fridge" := by
  refine ⟨rfl, fun h => ?_⟩
  have h1 : predict_ingredient_expiry_core safe_model "Dairy" 5 "fridge" =
      .ok ("Safe", some ((1 : ℚ) * 100)) := rfl
  have h2 : predict_ingredient_expiry_core safe_model_zero "Dairy" 5 "fridge" =
      .ok ("Safe", some ((0 : ℚ) * 100)) := rfl
  rw [h1, h2] at h
  norm_num at h

/-- C7 as amended: batch prediction on a single-item list yields exactly one
record, and given the same category, days and storage encodings its freshness
label equals the single-item prediction's label; the batch record carries no
confidence. -/
theorem C7_amended_batch_single_label (m : DTModel) (today : Int)
    (row : InventoryItem) (itype : String) (days : Int) (storage : String)
    (h1 : itype = (name_to_type.lookup row.name).getD "Vegetables")
    (h2 : days = today - row.date_added)
    (h3 : storage = row.storage_type)
    (label : String) (conf : Option ℚ)
    (h4 : predict_ingredient_expiry_core m itype days storage = .ok (label, conf)) :
    ∃ rec, check_current_ingredients_expiry m today [row] = .ok [rec] ∧
      rec.predicted_status = label ∧ rec.name = row.name ∧
      rec.type = itype ∧ rec.days_since_purchase = days := by
  subst h1
  subst h2
  subst h3
  obtain ⟨c, hc⟩ := encode_ingredient_type_known (derived_type_mem row.name)
  unfold predict_ingredient_expiry_core at h4
  simp only [hc] at h4
  cases hstor : encode_storage_type row.storage_type with
  | error e => simp only [hstor] at h4; exact Except.noConfusion h4
  | ok s =>
    simp only [hstor] at h4
    cases hpred : m.predict [c, today - row.date_added, s] with
    | error e => simp only [hpred] at h4; exact Except.noConfusion h4
    | ok lbl =>
      simp only [hpred] at h4
      cases hprob : m.predict_proba [c, today - row.date_added, s] with
      | error e => simp only [hprob] at h4; exact Except.noConfusion h4
      | ok probs =>
        simp only [hprob, Except.ok.injEq, Prod.mk.injEq] at h4
        rw [h4.1] at hpred
        refine ⟨{ name := row.name,
                  type := (name_to_type.lookup row.name).getD "Vegetables",
                  days_since_purchase := today - row.date_added,
                  storage := row.storage_type, predicted_status := label,
                  quantity := row.quantity, unit := row.unit },
                ?_, rfl, rfl, rfl, rfl⟩
        have hclass : classify_inventory_item m today row =
            .ok { name := row.name,
                  type := (name_to_type.lookup row.name).getD "Vegetables",
                  days_since_purchase := today - row.date_added,
                  storage := row.storage_type, predicted_status := label,
                  quantity := row.quantity, unit := row.unit } := by
          unfold classify_inventory_item
          simp only [hc, hstor, hpred]
        calc check_current_ingredients_expiry m today [row]
            = (classify_inventory_item m today row).bind (fun b => .ok [b]) := rfl
          _ = _ := by rw [hclass]; exact rfl

/-- Witness for C7's amended statement at the milk row and `safe_model`. -/
theorem C7_amended_batch_single_label_witness :
    ∃ rec, check_current_ingredients_expiry safe_model 100 [milk_item] = .ok [rec] ∧
      rec.predicted_status = "Safe" ∧ rec.name = milk_item.name ∧
      rec.type = "Dairy" ∧ rec.days_since_purchase = 5 :=
  C7_amended_batch_single_label safe_model 100 milk_item "Dairy" 5 "fridge"
    rfl rfl rfl "Safe" (some ((1 : ℚ) * 100)) rfl

/-- C9: an inventory row whose name is not a key of the `name_to_type` table
is silently assigned the category "Vegetables" and classified with category
code 1, rather than being rejected. -/
theorem C9_unknown_name_defaults_vegetables (m : DTModel) (today : Int)
    (row : InventoryItem) (hname : row.name ∉ name_to_type.map Prod.fst)
    (s : Int) (hs : encode_storage_type row.storage_type = .ok s)
    (hm : m.n_features_in = 3) :
    classify_inventory_item m today row =
      .ok { name := row.name, type := "Vegetables",
            days_since_purchase := today - row.date_added,
            storage := row.storage_type,
            predicted_status := m.classify [1, today - row.date_added, s],
            quantity := row.quantity, unit := row.unit } := by
  unfold classify_inventory_item DTModel.predict
  rw [lookup_eq_none_of_not_mem_keys hname, hs, hm]
  rfl

/-- Witness for C9: "Chocolate" is not in the lookup table and is classified
as a Vegetables item (code 1). -/
theorem C9_unknown_name_defaults_vegetables_witness :
    classify_inventory_item safe_model 100
        { id := 2, name := "Chocolate", quantity := 1, unit := "g",
          storage_type := "pantry", date_added := 90 } =
      .ok { name := "Chocolate", type := "Vegetables", days_since_purchase := 10,
            storage := "pantry", predicted_status := "Safe",
            quantity := 1, unit := "g" } := by
  have h := C9_unknown_name_defaults_vegetables safe_model 100
    { id := 2, name := "Chocolate", quantity := 1, unit := "g",
      storage_type := "pantry", date_added := 90 }
    (by decide) 3 rfl rfl
  simpa using h

end RecipeWaste
